import Mathlib

/-!
Verification of the cluster orchestration core in
container_service_extension/vcdbroker.py (the native VcdBroker).

The Python code is shallowly embedded: pure helpers become Lean functions
on lists of characters (Python strings), and the effectful orchestration
bodies become functions from an explicit environment of injected
infrastructure outcomes (which step fails, which script exits non-zero)
to an outcome record (terminal task status, rollback activity, which VMs
were touched).  Python exceptions are represented by an explicit
exception-kind type; a function that can raise returns an Option of the
exception kind or an outcome record carrying the handled result.
-/

set_option maxHeartbeats 1000000

/-! ## Characters and strings

Python strings are embedded as lists of characters.  The character class
of the name-validation regex is restricted to its ASCII reading (the
Python pattern is case-insensitive [A-Z0-9-]; exotic Unicode case
folding is outside the model). -/

/-- Membership in the character class [A-Z\d-] under IGNORECASE of the
cluster-name regex in is_valid_cluster_name (vcdbroker.py:1445). -/
def nameChar (c : Char) : Bool :=
  c.isAlpha || c.isDigit || c == '-'

/-- Python str.split on a dot separator: "".split(".") = [""],
"a..b".split(".") = ["a","","b"] (used at vcdbroker.py:1446). -/
def splitOnDot : List Char → List (List Char)
  | [] => [[]]
  | c :: cs =>
    match splitOnDot cs with
    | [] => [[]]
    | l :: ls => if c = '.' then [] :: l :: ls else (c :: l) :: ls

/-- Python string comparison a < b: lexicographic by code point, a strict
prefix is smaller.  This is the order used by the runtime (docker)
version comparison t_docker > c_docker at vcdbroker.py:1150. -/
def pyStrLt : List Char → List Char → Bool
  | [], [] => false
  | [], _ :: _ => true
  | _ :: _, [] => false
  | a :: as, b :: bs => if a < b then true else if b < a then false else pyStrLt as bs

/-! ## Cluster-name validation (vcdbroker.py:1439-1446)

The validator compiles the pattern (?!-)[A-Z\d-]{1,63}(?<!-)$ with
re.IGNORECASE and applies re.match to every dot-separated label.
re.match anchors at position 0 and succeeds iff the quantifier can
consume some k characters such that every constraint holds.  In Python,
the dollar anchor matches at the end of the string or just before a
newline that is the last character.  regexAcceptAt x k is the truth of
one such match attempt consuming exactly k characters. -/

/-- One match attempt of re.match((?!-)[A-Z\d-]{1,63}(?<!-)$, x) that
consumes exactly k characters: the lookahead (?!-) fails on a leading
hyphen, the class consumes k characters (1 to 63, all in the class), the
lookbehind (?<!-) fails on a hyphen at position k-1, and the dollar
anchor requires position k to be the end of x or just before a final
newline. -/
def regexAcceptAt (x : List Char) (k : Nat) : Bool :=
  decide (1 ≤ k) && decide (k ≤ 63) && decide (k ≤ x.length)
    && (x.take k).all nameChar
    && !(x.head? == some '-')
    && !((x.take k).getLast? == some '-')
    && (decide (k = x.length) || (decide (k + 1 = x.length) && (x.getLast? == some '\n')))

/-- Denotation of the compiled regex match on one label: some number of
consumed characters makes a match attempt succeed. -/
def labelMatch (x : List Char) : Bool :=
  (List.range (x.length + 1)).any fun k => regexAcceptAt x k

/-- is_valid_cluster_name (vcdbroker.py:1439-1446).  Returns none for the
empty string: Python evaluates name[-1] which raises IndexError there
(the length guard 0 > 25 does not fire first).  A single trailing dot is
stripped before splitting, exactly as in the source. -/
def is_valid_cluster_name (name : List Char) : Option Bool :=
  if name.length > 25 then some false
  else if name.isEmpty then none
  else
    some ((splitOnDot (if name.getLast? == some '.' then name.dropLast else name)).all
      labelMatch)

/-- The claim C3 grammar, written from the words of the spec: at most 25
characters, dot-separated labels each matching [A-Za-z0-9-]{1,63} with
no leading or trailing hyphen and no empty label. -/
def specLabelOk (lab : List Char) : Bool :=
  decide (1 ≤ lab.length) && decide (lab.length ≤ 63) && lab.all nameChar
    && !(lab.head? == some '-') && !(lab.getLast? == some '-')

/-- Cluster-name predicate exactly as claim C3 states it. -/
def specValidClusterName (name : List Char) : Bool :=
  decide (name.length ≤ 25) && (splitOnDot name).all specLabelOk

/-- A label accepted by the source regex: either a plain valid label, or
a valid label followed by one final newline (the Python dollar anchor
also matches just before a trailing newline). -/
def amendedLabelOk (lab : List Char) : Bool :=
  specLabelOk lab || ((lab.getLast? == some '\n') && specLabelOk lab.dropLast)

/-- The amended C3 grammar: at most 25 characters, one trailing dot is
stripped first, and every dot-separated label of the stripped name is
accepted by the source regex (including its trailing-newline allowance).
The empty string is not accepted (the source raises there). -/
def amendedValidClusterName (name : List Char) : Bool :=
  decide (name.length ≤ 25) && !name.isEmpty
    && (splitOnDot (if name.getLast? == some '.' then name.dropLast else name)).all
      amendedLabelOk

/-! ## Semantic versions and the upgrade decision (vcdbroker.py:1143-1152)

semantic_version.Version values are embedded as major/minor/patch
triples ordered lexicographically; prerelease and build tags are not
modelled (the version metadata this system writes is plain X.Y.Z).  The
library is an external collaborator of the repository. -/

/-- A parsed semantic version: major, minor, patch. -/
structure SemVer where
  major : Nat
  minor : Nat
  patch : Nat
deriving DecidableEq

/-- Strict semantic-version precedence on release versions: compare
major, then minor, then patch numerically. -/
def SemVer.lt (a b : SemVer) : Bool :=
  decide (a.major < b.major)
    || (decide (a.major = b.major)
        && (decide (a.minor < b.minor)
            || (decide (a.minor = b.minor) && decide (a.patch < b.patch))))

/-- Non-strict semantic-version precedence. -/
def SemVer.le (a b : SemVer) : Bool :=
  SemVer.lt a b || decide (a = b)

/-- Strict semantic-version order stated independently, from the words
of the spec (semantic-version ordering): the lexicographic order on the
(major, minor, patch) triple. -/
def semverLtSpec (a b : SemVer) : Prop :=
  Prod.Lex (fun x y : Nat => x < y)
    (Prod.Lex (fun x y : Nat => x < y) (fun x y : Nat => x < y))
    (a.major, (a.minor, a.patch)) (b.major, (b.minor, b.patch))

/-- Non-strict spec-side semantic-version order: strictly smaller or
equal. -/
def semverLeSpec (a b : SemVer) : Prop :=
  semverLtSpec a b ∨ a = b

/-- The three per-component upgrade flags computed by
_upgrade_cluster_async. -/
structure UpgradeFlags where
  upgrade_docker : Bool
  upgrade_k8s : Bool
  upgrade_cni : Bool
deriving DecidableEq

/-- The version-gating computation of _upgrade_cluster_async
(vcdbroker.py:1143-1152): upgrade_docker = t_docker > c_docker on raw
strings, upgrade_k8s = t_k8s >= c_k8s on semantic versions, and
upgrade_cni = t_cni > c_cni or t_k8s.major > c_k8s.major or
t_k8s.minor > c_k8s.minor. -/
def upgrade_decision (c_docker t_docker : List Char)
    (c_k8s t_k8s c_cni t_cni : SemVer) : UpgradeFlags :=
  { upgrade_docker := pyStrLt c_docker t_docker
    upgrade_k8s := SemVer.le c_k8s t_k8s
    upgrade_cni := SemVer.lt c_cni t_cni
      || decide (c_k8s.major < t_k8s.major)
      || decide (c_k8s.minor < t_k8s.minor) }

/-! ## Upgrade plan (get_cluster_upgrade_plan, vcdbroker.py:253-264) -/

/-- The fields of a server-side template record that the upgrade plan
reads: name, integer revision (the source applies int() to both sides of
the revision comparison), and the declared upgrade-from name list. -/
structure LocalTemplate where
  name : String
  revision : Int
  upgrade_from : List String
deriving DecidableEq

/-- get_cluster_upgrade_plan body (vcdbroker.py:256-264): keep every
template whose upgrade-from list contains the current template name,
except those with the current name and a revision at most the current
revision (the continue branch at line 260-261). -/
def get_cluster_upgrade_plan (templates : List LocalTemplate)
    (src_name : String) (src_rev : Int) : List LocalTemplate :=
  templates.filter fun t =>
    t.upgrade_from.contains src_name
      && !(t.name == src_name && decide (t.revision ≤ src_rev))

/-! ## Task status and exception kinds -/

/-- Terminal and running task states used by _update_task
(vcd_client.TaskStatus). -/
inductive TaskStatus
  | running
  | success
  | error
deriving DecidableEq

/-- The exception kinds that matter to the orchestration control flow
(container_service_extension.exceptions).  otherError stands for every
exception outside the named kinds (the generic except branches). -/
inductive CseException
  | masterNodeCreationError
  | workerNodeCreationError
  | nfsNodeCreationError
  | clusterJoiningError
  | clusterInitializationError
  | clusterOperationError
  | scriptExecutionError
  | nodeOperationError
  | otherError
deriving DecidableEq

/-- The exception tuple of the first except clause of
_create_cluster_async (vcdbroker.py:949-951): exactly these six kinds
reach the rollback branch. -/
def isCreateRollbackException : CseException → Bool
  | .masterNodeCreationError => true
  | .workerNodeCreationError => true
  | .nfsNodeCreationError => true
  | .clusterJoiningError => true
  | .clusterInitializationError => true
  | .clusterOperationError => true
  | _ => false

/-! ## create_cluster detached execution (vcdbroker.py:811-979)

The environment injects the outcome of every infrastructure or script
step; the Lean function computes which exception (if any) the body
raises, with the exception-wrapping of each step taken from the source:
create_vapp failures become ClusterOperationError (828-837), add_nodes
failures for master/worker/NFS become
Master/Worker/NFSNodeCreationError (866-881, 898-914, 929-945),
init_cluster wraps every internal failure into
ClusterInitializationError (1748-1770), get_master_ip raises
ScriptExecutionError (1726-1745), join_cluster raises
ScriptExecutionError for script errors and ClusterJoiningError for a
non-zero worker exit (1773-1807), and the remaining awaited
infrastructure steps raise untyped exceptions. -/

/-- Exception raised by init_cluster (vcdbroker.py:1748-1770): the
internal try wraps every failure (an execution failure, collected script
errors, or a non-zero exit of the master script) into
ClusterInitializationError. -/
def init_cluster_raises (exec_raises script_errors : Bool) (exit0 : Bool) :
    Option CseException :=
  if exec_raises then some .clusterInitializationError
  else if script_errors then some .clusterInitializationError
  else if !exit0 then some .clusterInitializationError
  else none

/-- Exception raised by get_master_ip (vcdbroker.py:1726-1745): an
execution failure propagates untyped, collected script errors raise
ScriptExecutionError. -/
def get_master_ip_raises (exec_raises script_errors : Bool) : Option CseException :=
  if exec_raises then some .otherError
  else if script_errors then some .scriptExecutionError
  else none

/-- Exception raised by join_cluster (vcdbroker.py:1773-1807): execution
failures propagate untyped, collected script errors on master or workers
raise ScriptExecutionError, and a non-zero exit of any worker join
script raises ClusterJoiningError. -/
def join_cluster_raises (master_exec_raises master_script_errors : Bool)
    (worker_exec_raises worker_script_errors : Bool)
    (worker_exit_codes : List Int) : Option CseException :=
  if master_exec_raises then some .otherError
  else if master_script_errors then some .scriptExecutionError
  else if worker_exec_raises then some .otherError
  else if worker_script_errors then some .scriptExecutionError
  else if worker_exit_codes.any (fun c => c != 0) then some .clusterJoiningError
  else none

/-- Injected outcomes of every step of the create-cluster body, in
source order, plus the request flags and the outcomes of the two
rollback sub-steps. -/
structure CreateClusterEnv where
  rollback : Bool
  enable_nfs : Bool
  create_vapp_ok : Bool
  create_vapp_wait_ok : Bool
  metadata_ok : Bool
  add_master_ok : Bool
  init_exec_raises : Bool
  init_script_errors : Bool
  init_exit0 : Bool
  masterip_exec_raises : Bool
  masterip_script_errors : Bool
  masterip_metadata_ok : Bool
  add_workers_ok : Bool
  join_master_exec_raises : Bool
  join_master_script_errors : Bool
  join_worker_exec_raises : Bool
  join_worker_script_errors : Bool
  join_worker_exit_codes : List Int
  add_nfs_ok : Bool
  rollback_get_cluster_ok : Bool
  rollback_delete_vapp_ok : Bool

/-- The first exception raised by the try body of _create_cluster_async
(vcdbroker.py:817-948), or none when every step succeeds. -/
def createClusterRaises (env : CreateClusterEnv) : Option CseException :=
  if !env.create_vapp_ok then some .clusterOperationError
  else if !env.create_vapp_wait_ok then some .otherError
  else if !env.metadata_ok then some .otherError
  else if !env.add_master_ok then some .masterNodeCreationError
  else
    match init_cluster_raises env.init_exec_raises env.init_script_errors env.init_exit0 with
    | some ex => some ex
    | none =>
      match get_master_ip_raises env.masterip_exec_raises env.masterip_script_errors with
      | some ex => some ex
      | none =>
        if !env.masterip_metadata_ok then some .otherError
        else if !env.add_workers_ok then some .workerNodeCreationError
        else
          match join_cluster_raises env.join_master_exec_raises
              env.join_master_script_errors env.join_worker_exec_raises
              env.join_worker_script_errors env.join_worker_exit_codes with
          | some ex => some ex
          | none =>
            if env.enable_nfs && !env.add_nfs_ok then some .nfsNodeCreationError
            else none

/-- Observable outcome of one detached create-cluster execution: the
terminal task status, whether the rollback branch ran, and whether the
cluster vApp was actually deleted by the rollback. -/
structure CreateClusterOutcome where
  status : TaskStatus
  rollbackAttempted : Bool
  vappDeleted : Bool
deriving DecidableEq

/-- The handler structure of _create_cluster_async (vcdbroker.py:811-979): on success the task is
marked SUCCESS; a raised exception of one of the six recognized kinds
reaches the first except clause, which runs the best-effort vApp
deletion only when rollback is true (952-967: get_cluster then
_delete_vapp inside a try whose failure is only logged) and then marks
the task ERROR (970-971); every other exception reaches the generic
except clause, which marks the task ERROR with no rollback (973-977).
No exception escapes the handler. -/
def create_cluster_async (env : CreateClusterEnv) : CreateClusterOutcome :=
  match createClusterRaises env with
  | none => { status := .success, rollbackAttempted := false, vappDeleted := false }
  | some ex =>
    if isCreateRollbackException ex then
      if env.rollback then
        { status := .error
          rollbackAttempted := true
          vappDeleted := env.rollback_get_cluster_ok && env.rollback_delete_vapp_ok }
      else { status := .error, rollbackAttempted := false, vappDeleted := false }
    else { status := .error, rollbackAttempted := false, vappDeleted := false }

/-! ## resize_cluster synchronous validation (vcdbroker.py:376-440) -/

/-- The worker-node list that get_cluster_info builds by live VM
enumeration (vcdbroker.py:94-111): the VMs of the vApp whose names carry
the worker node-type tag. -/
def worker_nodes (workerTag : List Char) (vm_names : List (List Char)) :
    List (List Char) :=
  vm_names.filter fun n => workerTag.isPrefixOf n

/-- Synchronous result of resize_cluster: one of the three raise sites,
or delegation to create_nodes with the recomputed worker count. -/
inductive ResizeOutcome
  | errorWorkerCountInvalid
  | errorScalingDown
  | errorAlreadyHasWorkers
  | delegatesToCreateNodes (num_workers : Int)
deriving DecidableEq

/-- resize_cluster validation (vcdbroker.py:411-440): reject a wanted
count below one (414-416); re-read the live worker count from VM
enumeration (421-423); reject scale-down (424-426) and equal count
(427-429); otherwise overwrite the requested count with the delta and
delegate to create_nodes (439-440). -/
def resize_cluster (workerTag : List Char) (vm_names : List (List Char))
    (num_workers_wanted : Int) : ResizeOutcome :=
  if num_workers_wanted < 1 then .errorWorkerCountInvalid
  else
    if ((worker_nodes workerTag vm_names).length : Int) > num_workers_wanted then
      .errorScalingDown
    else if ((worker_nodes workerTag vm_names).length : Int) = num_workers_wanted then
      .errorAlreadyHasWorkers
    else
      .delegatesToCreateNodes (num_workers_wanted - (worker_nodes workerTag vm_names).length)

/-! ## delete_nodes synchronous validation (vcdbroker.py:743-807) -/

/-- Synchronous result of delete_nodes: the empty-list early return, the
master-node rejection, or the dispatch (cluster lookup, task creation
and detached deletion all happen only on this branch). -/
inductive DeleteNodesOutcome
  | emptyBody
  | masterRejected (node : List Char)
  | dispatched (node_names_list : List (List Char))
deriving DecidableEq

/-- delete_nodes validation (vcdbroker.py:770-802): an empty target list
returns a response with an empty body at once (771-773); otherwise the
first name carrying the master node-type tag raises CseServerError
(775-777); otherwise the cluster is looked up and the detached deletion
is dispatched (779-802). -/
def delete_nodes (masterTag : List Char) (node_names_list : List (List Char)) :
    DeleteNodesOutcome :=
  if node_names_list.length = 0 then .emptyBody
  else
    match node_names_list.find? (fun n => masterTag.isPrefixOf n) with
    | some n => .masterRejected n
    | none => .dispatched node_names_list

/-! ## delete_nodes detached execution
(vcdbroker.py:1072-1109 and 1381-1414) -/

/-- Outcome of the drain attempt inside _delete_nodes_async: success,
one of the two exception kinds that the except clause at 1085 catches,
or any other exception (which the clause does not catch). -/
inductive DrainResult
  | ok
  | nodeOperationError
  | scriptExecutionError
  | unexpectedFailure
deriving DecidableEq

/-- Observable result of the low-level _delete_nodes helper
(vcdbroker.py:1381-1414): which targeted VMs were undeployed, whether
the final batch removal from the vApp completed, and whether the helper
raised.  The in-guest kubectl delete script (1387-1399) and each
per-VM undeploy (1402-1409) are best-effort: their failures are logged
and never raise, so kubectl_ok does not influence the result; only the
awaited batch delete_vms call (1411-1412) can raise. -/
structure DeleteNodesLowOutcome where
  undeployed : List (List Char)
  removedFromVmGroup : Bool
  raised : Bool
deriving DecidableEq

/-- The low-level _delete_nodes helper (vcdbroker.py:1381-1414). -/
def delete_nodes_from_vapp (node_names : List (List Char))
    (kubectl_ok : Bool) (undeploy_ok : List Char → Bool)
    (delete_vms_ok : Bool) : DeleteNodesLowOutcome :=
  { undeployed := node_names.filter undeploy_ok
    removedFromVmGroup := delete_vms_ok
    raised := !delete_vms_ok }

/-- Observable outcome of one detached delete-nodes execution. -/
structure DeleteNodesAsyncOutcome where
  status : TaskStatus
  undeployed : List (List Char)
  removedFromVmGroup : Bool
deriving DecidableEq

/-- The handler structure of _delete_nodes_async (vcdbroker.py:1072-1109): the drain attempt is
wrapped in a try that catches NodeOperationError and
ScriptExecutionError, logs and continues (1079-1088); any other drain
exception reaches the outer handler and marks the task ERROR
(1102-1107).  Then _delete_nodes runs; if it raises the outer handler
marks ERROR, otherwise the task is marked SUCCESS (1099-1101). -/
def delete_nodes_async (node_names : List (List Char)) (drain : DrainResult)
    (kubectl_ok : Bool) (undeploy_ok : List Char → Bool)
    (delete_vms_ok : Bool) : DeleteNodesAsyncOutcome :=
  match drain with
  | .unexpectedFailure =>
    { status := .error, undeployed := [], removedFromVmGroup := false }
  | _ =>
    let low := delete_nodes_from_vapp node_names kubectl_ok undeploy_ok delete_vms_ok
    if low.raised then
      { status := .error, undeployed := low.undeployed
        removedFromVmGroup := low.removedFromVmGroup }
    else
      { status := .success, undeployed := low.undeployed
        removedFromVmGroup := low.removedFromVmGroup }

/-! ## Node provisioner add_nodes (vcdbroker.py:1596-1707) -/

/-- The step of the add_nodes body at which an injected failure occurs:
during catalog/source-template resolution before any clone spec exists
(1614-1624), during the awaited batch add_vms call (1661-1663), or
during the per-node resize/power-on/NFS-script processing of the node at
a given index (1670-1699). -/
inductive AddNodesStep
  | catalogResolution
  | vmCloneBatch
  | nodeSetup (k : Nat)
deriving DecidableEq

/-- Result of add_nodes: the spec list on success, or the single wrapped
NodeCreationError carrying the target names of every clone spec built
before the failure (vcdbroker.py:1700-1704). -/
inductive AddNodesResult
  | ok (target_vm_names : List (List Char))
  | nodeCreationError (node_names : List (List Char))
deriving DecidableEq

/-- Observable outcome of one add_nodes call: its result, whether the
batch clone completed, and which nodes were powered on. -/
structure AddNodesOutcome where
  result : AddNodesResult
  vmsCloned : Bool
  poweredOn : List (List Char)
deriving DecidableEq

/-- add_nodes (vcdbroker.py:1596-1707), with the generated target VM
names injected (the source draws them from a random generator, retrying
until the name collides with no existing VM).  Every exception of the
body is caught at 1700-1704 and re-raised as NodeCreationError carrying
the target names of the specs built so far: the spec list is still
empty during catalog resolution, and complete from the batch clone step
on.  A failure while processing the node at index k leaves exactly the
earlier nodes powered on. -/
def add_nodes_model (target_vm_names : List (List Char))
    (failAt : Option AddNodesStep) : AddNodesOutcome :=
  match failAt with
  | some .catalogResolution =>
    { result := .nodeCreationError [], vmsCloned := false, poweredOn := [] }
  | some .vmCloneBatch =>
    { result := .nodeCreationError target_vm_names, vmsCloned := false, poweredOn := [] }
  | some (.nodeSetup k) =>
    { result := .nodeCreationError target_vm_names, vmsCloned := true
      poweredOn := target_vm_names.take k }
  | none =>
    { result := .ok target_vm_names, vmsCloned := true, poweredOn := target_vm_names }

/-! # Theorems -/

/-! ## Helper lemmas for the name-validator regex -/

theorem head_of_take_succ (l : List Char) (n : Nat) :
    (l.take (n + 1)).head? = l.head? := by
  cases l <;> rfl

theorem head_of_dropLast (l : List Char) (h : 2 ≤ l.length) :
    l.dropLast.head? = l.head? := by
  rw [List.dropLast_eq_take]
  obtain ⟨m, hm⟩ : ∃ m, l.length - 1 = m + 1 := ⟨l.length - 2, by omega⟩
  rw [hm]
  exact head_of_take_succ l m

theorem specLabelOk_iff (x : List Char) :
    specLabelOk x = true ↔
      (1 ≤ x.length ∧ x.length ≤ 63 ∧ x.all nameChar = true ∧
        x.head? ≠ some '-' ∧ x.getLast? ≠ some '-') := by
  simp [specLabelOk, and_assoc]

theorem regexAcceptAt_iff (x : List Char) (k : Nat) :
    regexAcceptAt x k = true ↔
      (1 ≤ k ∧ k ≤ 63 ∧ k ≤ x.length ∧ (x.take k).all nameChar = true ∧
        x.head? ≠ some '-' ∧ (x.take k).getLast? ≠ some '-' ∧
        (k = x.length ∨ (k + 1 = x.length ∧ x.getLast? = some '\n'))) := by
  simp [regexAcceptAt, and_assoc]

theorem labelMatch_true_iff (x : List Char) :
    labelMatch x = true ↔
      (specLabelOk x = true ∨
        (x.getLast? = some '\n' ∧ specLabelOk x.dropLast = true)) := by
  constructor
  · intro h
    rw [labelMatch, List.any_eq_true] at h
    obtain ⟨k, hk, hacc⟩ := h
    rw [regexAcceptAt_iff] at hacc
    obtain ⟨h1, h63, hkl, hall, hhead, hlast, hend⟩ := hacc
    rcases hend with heq | ⟨heq, hnl⟩
    · left
      subst heq
      rw [List.take_length] at hall hlast
      exact (specLabelOk_iff x).mpr ⟨h1, h63, hall, hhead, hlast⟩
    · right
      refine ⟨hnl, ?_⟩
      have hdl : x.dropLast = x.take k := by
        rw [List.dropLast_eq_take]
        congr 1
        omega
      have hlen : (x.take k).length = k := by
        rw [List.length_take]
        omega
      rw [specLabelOk_iff, hdl, hlen]
      refine ⟨h1, h63, hall, ?_, hlast⟩
      obtain ⟨m, rfl⟩ : ∃ m, k = m + 1 := ⟨k - 1, by omega⟩
      rw [head_of_take_succ]
      exact hhead
  · intro h
    rw [labelMatch, List.any_eq_true]
    rcases h with h | ⟨hnl, h⟩
    · rw [specLabelOk_iff] at h
      obtain ⟨h1, h63, hall, hhead, hlast⟩ := h
      refine ⟨x.length, List.mem_range.mpr (by omega), ?_⟩
      rw [regexAcceptAt_iff, List.take_length]
      exact ⟨h1, h63, le_refl _, hall, hhead, hlast, Or.inl rfl⟩
    · rw [specLabelOk_iff] at h
      obtain ⟨h1, h63, hall, hhead, hlast⟩ := h
      rw [List.length_dropLast] at h1 h63
      have hdl : x.dropLast = x.take (x.length - 1) := List.dropLast_eq_take x
      refine ⟨x.length - 1, List.mem_range.mpr (by omega), ?_⟩
      rw [regexAcceptAt_iff, ← hdl]
      refine ⟨by omega, by omega, by omega, hall, ?_, hlast,
        Or.inr ⟨by omega, hnl⟩⟩
      rw [← head_of_dropLast x (by omega)]
      exact hhead

theorem labelMatch_eq_amendedLabelOk (x : List Char) :
    labelMatch x = amendedLabelOk x := by
  rw [Bool.eq_iff_iff, labelMatch_true_iff]
  simp [amendedLabelOk]

/-- C3 (counterexample): the validator as the claim states it is wrong on
two concrete inputs.  "abc." is accepted by the source (the trailing dot
is stripped before the labels are checked) but contains an empty label,
and "ab\n" is accepted by the source (the Python dollar anchor matches
just before a final newline) but contains a character outside the
claimed class. -/
theorem C3_cluster_name_validator_counterexample :
    (is_valid_cluster_name ['a', 'b', 'c', '.'] = some true
      ∧ specValidClusterName ['a', 'b', 'c', '.'] = false)
    ∧ (is_valid_cluster_name ['a', 'b', '\n'] = some true
      ∧ specValidClusterName ['a', 'b', '\n'] = false) := by
  decide

/-- C3 (amended): the validator returns true exactly when the name is at
most 25 characters, is nonempty (on the empty string the source raises
IndexError instead of returning), and every dot-separated label of the
name after stripping one trailing dot is a label of 1 to 63 characters
from [A-Za-z0-9-] with no leading or trailing hyphen, possibly followed
by one final newline character. -/
theorem C3_cluster_name_validator_amended (name : List Char) :
    is_valid_cluster_name name = some true ↔
      amendedValidClusterName name = true := by
  have hfun : labelMatch = amendedLabelOk := funext labelMatch_eq_amendedLabelOk
  rw [is_valid_cluster_name, amendedValidClusterName, hfun]
  by_cases h25 : name.length > 25
  · rw [if_pos h25]
    have hd : decide (name.length ≤ 25) = false := by
      simp
      omega
    rw [hd]
    simp
  · rw [if_neg h25]
    have hd : decide (name.length ≤ 25) = true := decide_eq_true (by omega)
    rw [hd]
    by_cases hempty : name.isEmpty = true
    · rw [if_pos hempty, hempty]
      simp
    · rw [if_neg hempty]
      have hne : (!name.isEmpty) = true := by
        simp at hempty
        simp [hempty]
      rw [hne]
      simp

/-! ## C5: resize validation -/

/-- C5: resize recomputes the live worker count from VM enumeration and
rejects synchronously (one of the three raise sites, with no node
creation) exactly when the requested count is at most the current count;
it delegates to the add-nodes path exactly when the requested count
exceeds the current one, and then with exactly the delta. -/
theorem C5_resize_rejects_or_delegates (workerTag : List Char)
    (vm_names : List (List Char)) (wanted d : Int) :
    ((resize_cluster workerTag vm_names wanted = .errorWorkerCountInvalid
        ∨ resize_cluster workerTag vm_names wanted = .errorScalingDown
        ∨ resize_cluster workerTag vm_names wanted = .errorAlreadyHasWorkers)
      ↔ wanted ≤ ((worker_nodes workerTag vm_names).length : Int))
    ∧ (resize_cluster workerTag vm_names wanted = .delegatesToCreateNodes d
      ↔ (((worker_nodes workerTag vm_names).length : Int) < wanted
          ∧ d = wanted - ((worker_nodes workerTag vm_names).length : Int))) := by
  rw [resize_cluster]
  split_ifs with h1 h2 h3 <;> simp_all <;> omega

/-! ## C6: upgrade plan -/

/-- C6: a template is in the upgrade plan exactly when it is a known
template whose upgrade-from list contains the current template name and
it is not a same-named template at a revision at most the current one;
in particular the plan never contains the current (name, revision)
itself. -/
theorem C6_upgrade_plan_exact (templates : List LocalTemplate)
    (src_name : String) (src_rev : Int) (t : LocalTemplate) :
    (t ∈ get_cluster_upgrade_plan templates src_name src_rev
      ↔ (t ∈ templates ∧ src_name ∈ t.upgrade_from
          ∧ ¬(t.name = src_name ∧ t.revision ≤ src_rev)))
    ∧ ¬(t ∈ get_cluster_upgrade_plan templates src_name src_rev
        ∧ t.name = src_name ∧ t.revision = src_rev) := by
  have hmem : t ∈ get_cluster_upgrade_plan templates src_name src_rev
      ↔ (t ∈ templates ∧ src_name ∈ t.upgrade_from
          ∧ ¬(t.name = src_name ∧ t.revision ≤ src_rev)) := by
    rw [get_cluster_upgrade_plan, List.mem_filter]
    simp [List.contains, List.elem_iff, and_assoc]
    intro _ _
    tauto
  refine ⟨hmem, ?_⟩
  rintro ⟨hin, hname, hrev⟩
  exact (hmem.mp hin).2.2 ⟨hname, le_of_eq hrev⟩

/-- C6 (witness): with two concrete templates, the plan for a cluster on
(ubuntu, revision 1) contains the revision-2 template and the iff
excludes the current pair. -/
theorem C6_upgrade_plan_exact_witness :
    ({ name := "ubuntu", revision := 2, upgrade_from := ["ubuntu"] } : LocalTemplate)
      ∈ get_cluster_upgrade_plan
        [{ name := "ubuntu", revision := 1, upgrade_from := [] },
          { name := "ubuntu", revision := 2, upgrade_from := ["ubuntu"] }]
        "ubuntu" 1 :=
  (C6_upgrade_plan_exact
    [{ name := "ubuntu", revision := 1, upgrade_from := [] },
      { name := "ubuntu", revision := 2, upgrade_from := ["ubuntu"] }]
    "ubuntu" 1
    { name := "ubuntu", revision := 2, upgrade_from := ["ubuntu"] }).1.mpr
      ⟨by decide, by decide, by decide⟩

/-! ## C7 and C10: delete_nodes validation -/

/-- C7: delete_nodes rejects with the synchronous master-node error
exactly when some target name carries the master node-type tag; on the
rejection branch no cluster lookup, task creation or dispatch happens
(those live only on the dispatched branch of the model). -/
theorem C7_delete_nodes_master_guard (masterTag : List Char)
    (node_names_list : List (List Char)) :
    (∃ n, delete_nodes masterTag node_names_list
        = DeleteNodesOutcome.masterRejected n)
      ↔ ∃ n ∈ node_names_list, masterTag.isPrefixOf n = true := by
  rw [delete_nodes]
  by_cases hlen : node_names_list.length = 0
  · rw [if_pos hlen]
    rw [List.length_eq_zero] at hlen
    subst hlen
    simp
  · rw [if_neg hlen]
    cases hf : node_names_list.find? (fun n => masterTag.isPrefixOf n) with
    | none =>
      simp only [reduceCtorEq, exists_false, false_iff, not_exists]
      intro n hn
      obtain ⟨hmem, hpre⟩ := hn
      have := List.find?_eq_none.mp hf n hmem
      simp [hpre] at this
    | some n =>
      simp only [DeleteNodesOutcome.masterRejected.injEq, exists_eq', true_iff]
      exact ⟨n, List.mem_of_find?_eq_some hf, List.find?_some hf⟩

/-- C10: delete_nodes returns the immediate empty-body response exactly
when the target list is empty; on that branch no master-name validation
error is raised, no cluster lookup happens and nothing is dispatched. -/
theorem C10_delete_nodes_empty_list (masterTag : List Char)
    (node_names_list : List (List Char)) :
    delete_nodes masterTag node_names_list = DeleteNodesOutcome.emptyBody
      ↔ node_names_list = [] := by
  rw [delete_nodes]
  by_cases hlen : node_names_list.length = 0
  · rw [if_pos hlen]
    rw [List.length_eq_zero] at hlen
    simp [hlen]
  · rw [if_neg hlen]
    have hne : node_names_list ≠ [] := by
      intro h
      exact hlen (by simp [h])
    cases hf : node_names_list.find? (fun n => masterTag.isPrefixOf n) <;>
      simp [hne]

/-! ## Version-order lemmas and the upgrade gating (C2, C4) -/

theorem pyStrLt_irrefl (a : List Char) : pyStrLt a a = false := by
  induction a with
  | nil => rfl
  | cons c cs ih =>
    rw [pyStrLt]
    simp [ih]

theorem pyStrLt_iff_lex : ∀ a b : List Char,
    pyStrLt a b = true ↔ List.Lex (fun x y : Char => x < y) a b
  | [], [] => by
    simp only [pyStrLt, Bool.false_eq_true, false_iff]
    intro h
    cases h
  | [], b :: bs => by
    simp only [pyStrLt]
    exact iff_of_true trivial List.Lex.nil
  | a :: as, [] => by
    simp only [pyStrLt, Bool.false_eq_true, false_iff]
    intro h
    cases h
  | a :: as, b :: bs => by
    simp only [pyStrLt]
    by_cases hab : a < b
    · rw [if_pos hab]
      exact iff_of_true rfl (List.Lex.rel hab)
    · rw [if_neg hab]
      by_cases hba : b < a
      · rw [if_pos hba]
        simp only [Bool.false_eq_true, false_iff]
        intro h
        cases h with
        | rel h2 => exact hab h2
        | cons h2 => exact absurd hba (lt_irrefl a)
      · rw [if_neg hba]
        have heq : a = b := le_antisymm (le_of_not_lt hba) (le_of_not_lt hab)
        subst heq
        rw [pyStrLt_iff_lex as bs]
        constructor
        · exact fun h => List.Lex.cons h
        · intro h
          cases h with
          | rel h2 => exact absurd h2 (lt_irrefl a)
          | cons h2 => exact h2

theorem semverLt_iff (a b : SemVer) : SemVer.lt a b = true ↔ semverLtSpec a b := by
  rw [SemVer.lt, semverLtSpec, Prod.lex_def, Prod.lex_def]
  simp

theorem semverLe_iff (a b : SemVer) : SemVer.le a b = true ↔ semverLeSpec a b := by
  rw [SemVer.le, semverLeSpec]
  simp [semverLt_iff]

/-- C2 (counterexample): for a cluster whose recorded versions already
equal the target template versions (docker "19", Kubernetes 1.15.5,
CNI 0.7.0), the decision logic still marks Kubernetes for upgrade
(the source comparison is t_k8s >= c_k8s), so the three flags are not
all false as the claim states. -/
theorem C2_upgrade_idempotence_counterexample :
    (upgrade_decision ['1', '9'] ['1', '9']
        { major := 1, minor := 15, patch := 5 }
        { major := 1, minor := 15, patch := 5 }
        { major := 0, minor := 7, patch := 0 }
        { major := 0, minor := 7, patch := 0 }).upgrade_k8s = true := by
  decide

/-- C2 (amended): when the recorded docker, Kubernetes and CNI versions
equal the target template versions, the decision logic yields nothing to
upgrade for docker and CNI, but still marks Kubernetes for a
same-version upgrade, because the Kubernetes comparison is >=; so a
second run repeats the Kubernetes upgrade steps and no docker or CNI
step. -/
theorem C2_upgrade_idempotence_amended (docker : List Char) (k8s cni : SemVer) :
    upgrade_decision docker docker k8s k8s cni cni
      = { upgrade_docker := false, upgrade_k8s := true, upgrade_cni := false } := by
  rw [upgrade_decision, pyStrLt_irrefl]
  simp [SemVer.lt, SemVer.le]

/-- C4 (counterexample): with the Kubernetes major version changing
(2.0.0 recorded, 1.0.0 target) and the CNI version unchanged, the claim
says CNI must be marked for upgrade because the major version changes,
but the source marks it only on an increase, so the flag is false. -/
theorem C4_upgrade_gating_counterexample :
    ({ major := 1, minor := 0, patch := 0 } : SemVer).major
        ≠ ({ major := 2, minor := 0, patch := 0 } : SemVer).major
    ∧ (upgrade_decision ['1', '8'] ['1', '8']
        { major := 2, minor := 0, patch := 0 }
        { major := 1, minor := 0, patch := 0 }
        { major := 0, minor := 7, patch := 0 }
        { major := 0, minor := 7, patch := 0 }).upgrade_cni = false := by
  decide

/-- C4 (amended): Kubernetes is marked for upgrade exactly when the
target semantic version is at least the recorded one; docker is marked
exactly when the target string is lexicographically greater; CNI is
marked exactly when the target CNI semantic version is greater, or the
target Kubernetes major version is greater than the recorded one, or
the target Kubernetes minor version is greater than the recorded one
(an increase, not any change). -/
theorem C4_upgrade_gating_amended (c_docker t_docker : List Char)
    (c_k8s t_k8s c_cni t_cni : SemVer) :
    ((upgrade_decision c_docker t_docker c_k8s t_k8s c_cni t_cni).upgrade_docker = true
      ↔ List.Lex (fun x y : Char => x < y) c_docker t_docker)
    ∧ ((upgrade_decision c_docker t_docker c_k8s t_k8s c_cni t_cni).upgrade_k8s = true
      ↔ semverLeSpec c_k8s t_k8s)
    ∧ ((upgrade_decision c_docker t_docker c_k8s t_k8s c_cni t_cni).upgrade_cni = true
      ↔ (semverLtSpec c_cni t_cni ∨ c_k8s.major < t_k8s.major
          ∨ c_k8s.minor < t_k8s.minor)) := by
  refine ⟨?_, ?_, ?_⟩
  · rw [upgrade_decision]
    exact pyStrLt_iff_lex c_docker t_docker
  · rw [upgrade_decision]
    exact semverLe_iff c_k8s t_k8s
  · rw [upgrade_decision]
    simp [semverLt_iff]
    tauto

/-! ## C1: create_cluster failure and rollback policy -/

/-- C1: whenever the detached create-cluster body raises, then if the
exception is one of the six recognized kinds (master/worker/NFS node
creation, cluster joining, cluster initialization, cluster operation)
and rollback is true, the orchestrator attempts the vApp deletion (the
vApp is gone exactly when both rollback sub-steps succeed; a deletion
failure is only logged) and marks the task ERROR; with rollback false
the vApp is left intact and the task is marked ERROR; any unrecognized
exception marks the task ERROR with no rollback attempt. -/
theorem C1_create_cluster_failure_policy (env : CreateClusterEnv)
    (ex : CseException) (h : createClusterRaises env = some ex) :
    (isCreateRollbackException ex = true → env.rollback = true →
      create_cluster_async env =
        { status := .error, rollbackAttempted := true
          vappDeleted := env.rollback_get_cluster_ok && env.rollback_delete_vapp_ok })
    ∧ (isCreateRollbackException ex = true → env.rollback = false →
      create_cluster_async env =
        { status := .error, rollbackAttempted := false, vappDeleted := false })
    ∧ (isCreateRollbackException ex = false →
      create_cluster_async env =
        { status := .error, rollbackAttempted := false, vappDeleted := false }) := by
  rw [create_cluster_async, h]
  refine ⟨?_, ?_, ?_⟩
  · intro h1 h2
    simp [h1, h2]
  · intro h1 h2
    simp [h1, h2]
  · intro h1
    simp [h1]

/-- C1 (witness): a concrete environment where worker provisioning fails
with rollback requested and both rollback sub-steps succeeding: the body
raises WorkerNodeCreationError, the vApp is deleted and the task ends in
ERROR. -/
theorem C1_create_cluster_failure_policy_witness :
    createClusterRaises
        { rollback := true, enable_nfs := false, create_vapp_ok := true
          create_vapp_wait_ok := true, metadata_ok := true, add_master_ok := true
          init_exec_raises := false, init_script_errors := false, init_exit0 := true
          masterip_exec_raises := false, masterip_script_errors := false
          masterip_metadata_ok := true, add_workers_ok := false
          join_master_exec_raises := false, join_master_script_errors := false
          join_worker_exec_raises := false, join_worker_script_errors := false
          join_worker_exit_codes := [], add_nfs_ok := true
          rollback_get_cluster_ok := true, rollback_delete_vapp_ok := true }
      = some CseException.workerNodeCreationError
    ∧ create_cluster_async
        { rollback := true, enable_nfs := false, create_vapp_ok := true
          create_vapp_wait_ok := true, metadata_ok := true, add_master_ok := true
          init_exec_raises := false, init_script_errors := false, init_exit0 := true
          masterip_exec_raises := false, masterip_script_errors := false
          masterip_metadata_ok := true, add_workers_ok := false
          join_master_exec_raises := false, join_master_script_errors := false
          join_worker_exec_raises := false, join_worker_script_errors := false
          join_worker_exit_codes := [], add_nfs_ok := true
          rollback_get_cluster_ok := true, rollback_delete_vapp_ok := true }
      = { status := .error, rollbackAttempted := true, vappDeleted := true } := by
  refine ⟨rfl, ?_⟩
  have h := (C1_create_cluster_failure_policy
    { rollback := true, enable_nfs := false, create_vapp_ok := true
      create_vapp_wait_ok := true, metadata_ok := true, add_master_ok := true
      init_exec_raises := false, init_script_errors := false, init_exit0 := true
      masterip_exec_raises := false, masterip_script_errors := false
      masterip_metadata_ok := true, add_workers_ok := false
      join_master_exec_raises := false, join_master_script_errors := false
      join_worker_exec_raises := false, join_worker_script_errors := false
      join_worker_exit_codes := [], add_nfs_ok := true
      rollback_get_cluster_ok := true, rollback_delete_vapp_ok := true }
    CseException.workerNodeCreationError rfl).1 rfl rfl
  simpa using h

/-! ## C8: delete_nodes drain is best-effort -/

/-- C8: when the drain step of the detached delete-nodes execution fails
with either of the two caught kinds (a non-zero drain script exit
surfacing as NodeOperationError, or collected script errors surfacing as
ScriptExecutionError), the deletion still proceeds: undeploy is
attempted on every targeted node, and when the final batch removal
completes the VMs are removed from the vApp and the task ends in
SUCCESS. -/
theorem C8_delete_nodes_drain_best_effort (node_names : List (List Char))
    (drain : DrainResult) (kubectl_ok : Bool) (undeploy_ok : List Char → Bool)
    (h : drain = DrainResult.nodeOperationError
        ∨ drain = DrainResult.scriptExecutionError) :
    delete_nodes_async node_names drain kubectl_ok undeploy_ok true =
      { status := .success, undeployed := node_names.filter undeploy_ok
        removedFromVmGroup := true } := by
  rcases h with h | h <;> subst h <;> rfl

/-- C8 (witness): a concrete single-node deletion where the drain script
exits non-zero and even the in-guest kubectl delete fails: the node is
still undeployed and removed, and the task ends SUCCESS. -/
theorem C8_delete_nodes_drain_best_effort_witness :
    delete_nodes_async [['w', '1']] DrainResult.nodeOperationError false
        (fun _ => true) true =
      { status := .success, undeployed := [['w', '1']]
        removedFromVmGroup := true } := by
  have h := C8_delete_nodes_drain_best_effort [['w', '1']]
    DrainResult.nodeOperationError false (fun _ => true) (Or.inl rfl)
  simpa using h

/-! ## C9: add_nodes wraps every failure into one NodeCreationError -/

/-- C9: whenever any step of the node-provisioning sequence fails, the
result is a single NodeCreationError carrying the target names of the
clone specs built before the failure: the empty list when catalog
resolution fails before the specs exist, and the full target list from
the batch clone onward; a failure while processing node k leaves exactly
the earlier nodes powered on, so partial success is representable. -/
theorem C9_add_nodes_single_typed_failure (target_vm_names : List (List Char))
    (failAt : Option AddNodesStep) (h : failAt ≠ none) :
    ∃ carried,
      (add_nodes_model target_vm_names failAt).result
          = AddNodesResult.nodeCreationError carried
      ∧ (failAt = some AddNodesStep.catalogResolution → carried = [])
      ∧ (failAt = some AddNodesStep.vmCloneBatch → carried = target_vm_names)
      ∧ (∀ k, failAt = some (AddNodesStep.nodeSetup k) →
          carried = target_vm_names
          ∧ (add_nodes_model target_vm_names failAt).poweredOn
              = target_vm_names.take k) := by
  cases failAt with
  | none => exact absurd rfl h
  | some step =>
    cases step with
    | catalogResolution =>
      refine ⟨[], rfl, fun _ => rfl, fun h2 => ?_, fun k h2 => ?_⟩
      · simp at h2
      · simp at h2
    | vmCloneBatch =>
      refine ⟨target_vm_names, rfl, fun h2 => ?_, fun _ => rfl, fun k h2 => ?_⟩
      · simp at h2
      · simp at h2
    | nodeSetup k0 =>
      refine ⟨target_vm_names, rfl, fun h2 => ?_, fun h2 => ?_, fun k h2 => ?_⟩
      · simp at h2
      · simp at h2
      · obtain rfl : k0 = k := by simpa using h2
        exact ⟨rfl, rfl⟩

/-- C9 (witness): provisioning two workers with a failure while
processing the second node: the error carries both target names while
only the first node was powered on. -/
theorem C9_add_nodes_single_typed_failure_witness :
    (add_nodes_model [['w', '1'], ['w', '2']]
        (some (AddNodesStep.nodeSetup 1))).result
      = AddNodesResult.nodeCreationError [['w', '1'], ['w', '2']]
    ∧ (add_nodes_model [['w', '1'], ['w', '2']]
        (some (AddNodesStep.nodeSetup 1))).poweredOn
      = [['w', '1']] := by
  obtain ⟨carried, hres, -, -, hsetup⟩ :=
    C9_add_nodes_single_typed_failure [['w', '1'], ['w', '2']]
      (some (AddNodesStep.nodeSetup 1)) (by simp)
  obtain ⟨hc, hp⟩ := hsetup 1 rfl
  subst hc
  exact ⟨hres, by simpa using hp⟩
